import Mathlib

/-!
Shallow embedding of the Active-Arena booking server (src/index.js).

The persistent store is modelled as a `DBState` holding the collections the
verified claims touch (bookings, users, and — per the specification's data
model — payment records).  Each HTTP handler from `index.js` becomes a pure
function from its request fields and the current state to a response status
code and the next state.  MongoDB's `updateOne` / `findOne` / `deleteOne`
single-document semantics are modelled by first-match operations on lists.
Prices and money amounts are exact rationals; `Math.round` is half-up
rounding (`jsRound`).  JavaScript string truthiness is modelled by comparing
with the empty string.
-/

/-- A document of the `bookings` collection (see `POST /bookings`,
`index.js` lines 381-391). -/
structure Booking where
  id : Nat
  courtId : String
  userId : String
  userEmail : String
  slots : List String
  date : String
  price : ℚ
  status : String
  paymentStatus : String
  createdAt : Nat
  transactionId : Option String
  paidAt : Option Nat
deriving DecidableEq

/-- A document of the `users` collection (see `POST /users`,
`index.js` lines 492-511). -/
structure User where
  id : Nat
  name : String
  email : String
  role : String
deriving DecidableEq

/-- Modelled from the spec: the source code of `index.js` opens only the
collections courts, bookings, users, coupons and announcements and defines
no payment-record type; this record shape follows the specification's
PaymentRecord data model (booking reference, external transaction id,
amount, currency, gateway status, creation timestamp) so that statements
about PaymentRecord insertion can be expressed against the code. -/
structure PaymentRecord where
  bookingId : Nat
  transactionId : String
  amount : ℚ
  currency : String
  status : String
  createdAt : Nat
deriving DecidableEq

/-- The slice of the persistent store the verified claims touch.  `nextId`
models the generation of fresh document ids on insertion. -/
structure DBState where
  bookings : List Booking
  users : List User
  payments : List PaymentRecord
  nextId : Nat
deriving DecidableEq

/-- `updateOne`-style update: apply `f` to the first element satisfying `q`,
leave the rest unchanged. -/
def updateFirst {α : Type} (q : α → Bool) (f : α → α) : List α → List α
  | [] => []
  | x :: xs => if q x then f x :: xs else x :: updateFirst q f xs

/-- `Math.round`: round half toward positive infinity. -/
def jsRound (q : ℚ) : Int := ⌊q + 1 / 2⌋

/-- The `$set` document of the webhook's `updateOne`
(`index.js` lines 55-58). -/
def confirmUpdate (b : Booking) : Booking :=
  { b with paymentStatus := "completed", status := "Confirmed" }

/-- The `$set` document of the status endpoint's `updateOne`
(`index.js` line 414). -/
def statusUpdate (status : String) (b : Booking) : Booking :=
  { b with status := status }

/-- The `$set` document of the role promotion `updateOne`
(`index.js` lines 423-426). -/
def memberUpdate (u : User) : User :=
  { u with role := "member" }

/-- The `$set` document of the admin payment endpoint's `updateOne`
(`index.js` lines 466-469). -/
def paymentStatusUpdate (paymentStatus : String) (b : Booking) : Booking :=
  { b with paymentStatus := paymentStatus }

/-- The `$set` document of the `POST /payment-success` `updateOne`
(`index.js` lines 722-731). -/
def paidUpdate (transactionId : String) (now : Nat) (b : Booking) : Booking :=
  { b with paymentStatus := "paid", transactionId := some transactionId,
           paidAt := some now }

/-- The `/stripe-webhook` handler (`index.js` lines 25-76).  `sigValid`
models whether `stripe.webhooks.constructEvent` accepts the raw body and
signature against the shared secret; on failure the handler returns 400
before touching any state.  On a `payment_intent.succeeded` event the
handler reads `metadata.bookingId` (500 on absence), runs `updateOne` on the
bookings collection setting `paymentStatus = "completed"` and
`status = "Confirmed"`, and returns 500 when `matchedCount` is zero,
otherwise 200.  Any other event type is acknowledged with 200.  The event's
`amount` is carried in the event object but never used by the handler. -/
def stripeWebhook (sigValid : Bool) (eventType : String)
    (metaBookingId : Option Nat) (amount : Int) (st : DBState) :
    Nat × DBState :=
  if !sigValid then (400, st)
  else if eventType = "payment_intent.succeeded" then
    match metaBookingId with
    | none => (500, st)
    | some bid =>
      if (st.bookings.find? (fun b => b.id == bid)).isSome then
        (200, { st with
          bookings := updateFirst (fun b => b.id == bid)
            confirmUpdate st.bookings })
      else (500, st)
  else (200, st)

/-- The `POST /bookings` handler (`index.js` lines 373-399).  The guard is
the JavaScript truthiness check
`!courtId || !userId || !userEmail || !slots || !Array.isArray(slots) ||
slots.length === 0 || !date || !price`; for strings falsiness is emptiness
and for the numeric price it is being zero.  On success a booking is
inserted with `status = "pending"`, `paymentStatus = "pending"` and
`createdAt` the current time. -/
def createBooking (courtId userId userEmail : String) (slots : List String)
    (date : String) (price : ℚ) (now : Nat) (st : DBState) :
    Nat × DBState :=
  if courtId = "" ∨ userId = "" ∨ userEmail = "" ∨ slots = [] ∨ date = "" ∨
      price = 0 then
    (400, st)
  else
    (201, { st with
      bookings := st.bookings ++
        [{ id := st.nextId, courtId := courtId, userId := userId,
           userEmail := userEmail, slots := slots, date := date,
           price := price, status := "pending", paymentStatus := "pending",
           createdAt := now, transactionId := none, paidAt := none }],
      nextId := st.nextId + 1 })

/-- Email resolution of the `PUT /bookings/:id/status` handler
(`index.js` lines 416-420): prefer the request's `userEmail`, else the
booking's stored `userEmail`, else — when a `userId` was supplied — the
email of that user looked up by id; empty string when nothing resolves. -/
def resolveEmail (userEmail : String) (b : Booking) (userId : Option Nat)
    (users : List User) : String :=
  let e := if userEmail ≠ "" then userEmail else b.userEmail
  if e = "" then
    match userId with
    | some uid =>
      match users.find? (fun u => u.id == uid) with
      | some u => u.email
      | none => ""
    | none => ""
  else e

/-- The `PUT /bookings/:id/status` handler (`index.js` lines 402-434):
reject statuses outside Approved/Rejected with 400, 404 when the booking id
does not resolve; otherwise set the booking's status and — when the status
is Approved and an email resolved — set the role of the user with that
email to `member`.  Role promotion is silently skipped when no email
resolves. -/
def setBookingStatus (id : Nat) (status : String) (userEmail : String)
    (userId : Option Nat) (st : DBState) : Nat × DBState :=
  if ¬(status = "Approved" ∨ status = "Rejected") then (400, st)
  else
    match st.bookings.find? (fun b => b.id == id) with
    | none => (404, st)
    | some booking =>
      let bookings1 := updateFirst (fun b => b.id == id)
        (statusUpdate status) st.bookings
      let e := resolveEmail userEmail booking userId st.users
      let users1 :=
        if status = "Approved" ∧ e ≠ "" then
          updateFirst (fun u => u.email == e) memberUpdate st.users
        else st.users
      (200, { st with bookings := bookings1, users := users1 })

/-- The `PUT /bookings/:id/payment` handler (`index.js` lines 454-476):
accepts exactly the payment statuses `"pending"` and `"completed"` and sets
the booking's `paymentStatus` to the requested value unconditionally. -/
def updateBookingPayment (id : Nat) (paymentStatus : String)
    (st : DBState) : Nat × DBState :=
  if ¬(paymentStatus = "pending" ∨ paymentStatus = "completed") then
    (400, st)
  else if (st.bookings.find? (fun b => b.id == id)).isSome then
    (200, { st with
      bookings := updateFirst (fun b => b.id == id)
        (paymentStatusUpdate paymentStatus) st.bookings })
  else (404, st)

/-- The `POST /payment-success` handler (`index.js` lines 718-742): set
`paymentStatus = "paid"`, the transaction id and the paid timestamp on the
booking; respond 404 when `modifiedCount` is zero (no matching booking, or
the update changed nothing). -/
def paymentSuccess (bookingId : Nat) (transactionId : String) (now : Nat)
    (st : DBState) : Nat × DBState :=
  match st.bookings.find? (fun b => b.id == bookingId) with
  | none => (404, st)
  | some b =>
    let st1 := { st with
      bookings := updateFirst (fun x => x.id == bookingId)
        (paidUpdate transactionId now) st.bookings }
    if paidUpdate transactionId now b = b then (404, st1) else (200, st1)

/-- The `POST /create-payment-intent` handler (`index.js` lines 184-214):
compute `amount = Math.round(parseFloat(price) * 100)` first, reject with
400 when `!amount || amount < 50`, then reject with 400 when the booking id
is missing; otherwise create the gateway intent (no local state change). -/
def createPaymentIntent (price : ℚ) (bookingId : String) (st : DBState) :
    Nat × DBState :=
  let amount := jsRound (price * 100)
  if amount = 0 ∨ amount < 50 then (400, st)
  else if bookingId = "" then (400, st)
  else (200, st)

/-- The `POST /users` handler (`index.js` lines 492-511): 400 when name or
email is missing; when a user with the email already exists, respond 200
with that existing record and insert nothing; otherwise insert the user
with role `"user"`. -/
def createUser (name email : String) (st : DBState) :
    Nat × Option User × DBState :=
  if name = "" ∨ email = "" then (400, none, st)
  else
    match st.users.find? (fun u => u.email == email) with
    | some existing => (200, some existing, st)
    | none =>
      (201, none, { st with
        users := st.users ++
          [{ id := st.nextId, name := name, email := email,
             role := "user" }],
        nextId := st.nextId + 1 })

/-- The state-mutating operations of the modelled system, used to quantify
over "every operation" in invariant statements. -/
inductive Op where
  | webhook (sigValid : Bool) (eventType : String)
      (metaBookingId : Option Nat) (amount : Int)
  | newBooking (courtId userId userEmail : String) (slots : List String)
      (date : String) (price : ℚ) (now : Nat)
  | setStatus (id : Nat) (status : String) (userEmail : String)
      (userId : Option Nat)
  | adminSetPayment (id : Nat) (paymentStatus : String)
  | clientPaymentSuccess (bookingId : Nat) (txn : String) (now : Nat)
  | newUser (name email : String)

/-- Dispatch an operation to its handler. -/
def Op.apply : Op → DBState → Nat × DBState
  | .webhook sv et m a, st => stripeWebhook sv et m a st
  | .newBooking c u e s d p n, st => createBooking c u e s d p n st
  | .setStatus i s e u, st => setBookingStatus i s e u st
  | .adminSetPayment i p, st => updateBookingPayment i p st
  | .clientPaymentSuccess b t n, st => paymentSuccess b t n st
  | .newUser n e, st =>
    let r := createUser n e st
    (r.1, r.2.2)

/-- A concrete pending booking used in scenario statements. -/
def bookingB1 : Booking :=
  { id := 1, courtId := "c1", userId := "u1", userEmail := "u1@mail.com",
    slots := ["10:00-11:00"], date := "2024-06-01", price := 20,
    status := "pending", paymentStatus := "pending", createdAt := 0,
    transactionId := none, paidAt := none }

/-- A store holding exactly the pending booking `bookingB1`. -/
def stB1 : DBState :=
  { bookings := [bookingB1], users := [], payments := [], nextId := 2 }

/-- `bookingB1` after successful payment reconciliation. -/
def bookingB1paid : Booking :=
  { bookingB1 with paymentStatus := "completed", status := "Confirmed" }

/-- A store holding exactly the already-confirmed booking
`bookingB1paid`. -/
def stB1paid : DBState :=
  { bookings := [bookingB1paid], users := [], payments := [], nextId := 2 }

/-- The empty store. -/
def stEmpty : DBState :=
  { bookings := [], users := [], payments := [], nextId := 1 }

/-- A concrete user whose email matches `bookingB1`'s contact. -/
def userU1 : User :=
  { id := 5, name := "Mia", email := "u1@mail.com", role := "user" }

/-- A store holding exactly the user `userU1`. -/
def stU1 : DBState :=
  { bookings := [], users := [userU1], payments := [], nextId := 6 }

/-- A store holding the pending booking `bookingB1` and the user
`userU1`. -/
def stB1User : DBState :=
  { bookings := [bookingB1], users := [userU1], payments := [], nextId := 6 }

/-- `find?` commutes with `updateFirst` under the same predicate: the first
match is found and comes back updated, provided the update preserves the
predicate. -/
theorem find?_updateFirst_self {α : Type} (p : α → Bool) (f : α → α)
    (hpf : ∀ x, p (f x) = p x) (l : List α) (b : α)
    (h : l.find? p = some b) :
    (updateFirst p f l).find? p = some (f b) := by
  induction l with
  | nil => simp [List.find?] at h
  | cons x xs ih =>
    by_cases hx : p x = true
    · simp [updateFirst, List.find?, hx, hpf] at h ⊢
      exact congrArg f h
    · simp [updateFirst, List.find?, hx, hpf] at h ⊢
      exact ih h

/-- After an `updateFirst` whose update preserves predicate `p`, the first
`p`-match is either the original first `p`-match or its updated image. -/
theorem find?_updateFirst_or {α : Type} (p q : α → Bool) (f : α → α)
    (hpf : ∀ x, p (f x) = p x) (l : List α) :
    (updateFirst q f l).find? p = l.find? p ∨
      ∃ b, l.find? p = some b ∧ (updateFirst q f l).find? p = some (f b) := by
  induction l with
  | nil => left; rfl
  | cons x xs ih =>
    by_cases hq : q x = true
    · by_cases hx : p x = true
      · right
        exact ⟨x, by simp [List.find?, hx], by simp [updateFirst, hq, List.find?, hpf, hx]⟩
      · left
        simp [updateFirst, hq, List.find?, hpf, hx]
    · by_cases hx : p x = true
      · left
        simp [updateFirst, hq, List.find?, hx]
      · rcases ih with h1 | ⟨b, hb1, hb2⟩
        · left
          simpa [updateFirst, hq, List.find?, hx] using h1
        · right
          exact ⟨b, by simp [List.find?, hx, hb1], by simpa [updateFirst, hq, List.find?, hx] using hb2⟩

/-- `updateFirst` is idempotent when the update function is idempotent and
preserves the predicate. -/
theorem updateFirst_idem {α : Type} (q : α → Bool) (f : α → α)
    (hq : ∀ x, q (f x) = q x) (hf : ∀ x, f (f x) = f x) (l : List α) :
    updateFirst q f (updateFirst q f l) = updateFirst q f l := by
  induction l with
  | nil => rfl
  | cons x xs ih =>
    by_cases hx : q x = true
    · simp [updateFirst, hx, hq, hf]
    · simp [updateFirst, hx, ih]

/-- A first match in the left list survives appending on the right. -/
theorem find?_append_some {α : Type} (p : α → Bool) (l1 l2 : List α) (b : α)
    (h : l1.find? p = some b) : (l1 ++ l2).find? p = some b := by
  induction l1 with
  | nil => simp [List.find?] at h
  | cons x xs ih =>
    by_cases hx : p x = true
    · rw [List.find?_cons_of_pos _ hx] at h
      rw [List.cons_append, List.find?_cons_of_pos _ hx]
      exact h
    · rw [List.find?_cons_of_neg _ hx] at h
      rw [List.cons_append, List.find?_cons_of_neg _ hx]
      exact ih h

/-- Claim C4: a webhook delivery whose signature fails verification is
answered with HTTP 400 and performs no state mutation — the whole store,
hence every booking and every PaymentRecord, is unchanged. -/
theorem webhook_bad_signature_no_mutation (eventType : String)
    (metaBookingId : Option Nat) (amount : Int) (st : DBState) :
    stripeWebhook false eventType metaBookingId amount st = (400, st) := rfl

/-- Claim C1, counterexample: delivering the correctly signed
`payment_intent.succeeded` event for the pending booking `bookingB1` with
amount 2000 confirms the booking but does not insert any PaymentRecord —
the number of PaymentRecords referencing the booking is 0, not 1. -/
theorem webhook_inserts_no_payment_record :
    (stripeWebhook true "payment_intent.succeeded" (some 1) 2000 stB1).1 = 200 ∧
    (stripeWebhook true "payment_intent.succeeded" (some 1) 2000 stB1).2.bookings.find?
        (fun b => b.id == 1) = some bookingB1paid ∧
    ¬ (((stripeWebhook true "payment_intent.succeeded" (some 1) 2000
          stB1).2.payments.filter (fun p => p.bookingId == 1)).length = 1) := by
  decide

/-- Claim C1 (amended): delivering a correctly signed
`payment_intent.succeeded` event whose metadata carries the id of an
existing booking acknowledges with 200 and sets that booking's status to
Confirmed and paymentStatus to completed; the charged amount is ignored and
no PaymentRecord is inserted (the payments collection is unchanged). -/
theorem webhook_success_confirms_booking (st : DBState) (bid : Nat)
    (b : Booking) (amount : Int)
    (h : st.bookings.find? (fun x => x.id == bid) = some b) :
    (stripeWebhook true "payment_intent.succeeded" (some bid) amount st).1 = 200 ∧
    (stripeWebhook true "payment_intent.succeeded" (some bid) amount st).2.bookings.find?
        (fun x => x.id == bid) =
      some { b with paymentStatus := "completed", status := "Confirmed" } ∧
    (stripeWebhook true "payment_intent.succeeded" (some bid) amount st).2.payments =
      st.payments := by
  have hb : (st.bookings.find? (fun x => x.id == bid)).isSome = true := by
    rw [h]; rfl
  have hu := find?_updateFirst_self (fun x => x.id == bid) confirmUpdate
    (fun x => rfl) st.bookings b h
  unfold stripeWebhook
  simp [hb, hu, confirmUpdate]

/-- Witness for `webhook_success_confirms_booking` at the concrete store
`stB1`. -/
theorem webhook_success_confirms_booking_witness :
    stB1.bookings.find? (fun x => x.id == 1) = some bookingB1 ∧
    ((stripeWebhook true "payment_intent.succeeded" (some 1) 2000 stB1).1 = 200 ∧
     (stripeWebhook true "payment_intent.succeeded" (some 1) 2000 stB1).2.bookings.find?
        (fun x => x.id == 1) =
       some { bookingB1 with paymentStatus := "completed", status := "Confirmed" } ∧
     (stripeWebhook true "payment_intent.succeeded" (some 1) 2000 stB1).2.payments =
       stB1.payments) :=
  ⟨by decide, webhook_success_confirms_booking stB1 1 bookingB1 2000 (by decide)⟩

/-- Claim C6, counterexample: a booking request whose price is the negative
number -5 is not rejected — the handler answers 201 and inserts the
booking, refuting that every non-positive price fails with
ValidationError. -/
theorem createBooking_accepts_negative_price :
    ((-5 : ℚ) < 0) ∧
    (createBooking "c1" "u1" "u1@mail.com" ["10:00-11:00"] "2024-06-01"
        (-5) 0 stEmpty).1 = 201 ∧
    (createBooking "c1" "u1" "u1@mail.com" ["10:00-11:00"] "2024-06-01"
        (-5) 0 stEmpty).2.bookings.length = 1 := by
  decide

/-- Claim C6 (amended): createBooking fails with ValidationError (400)
exactly when some field is missing (empty), slots is empty, or the price is
zero; in that case no booking is inserted (the store is unchanged).  A
nonzero — in particular negative — price passes validation. -/
theorem createBooking_validation (courtId userId userEmail : String)
    (slots : List String) (date : String) (price : ℚ) (now : Nat)
    (st : DBState) :
    ((createBooking courtId userId userEmail slots date price now st).1 = 400 ↔
      (courtId = "" ∨ userId = "" ∨ userEmail = "" ∨ slots = [] ∨
        date = "" ∨ price = 0)) ∧
    ((courtId = "" ∨ userId = "" ∨ userEmail = "" ∨ slots = [] ∨
        date = "" ∨ price = 0) →
      (createBooking courtId userId userEmail slots date price now st).2 = st) := by
  by_cases hc : courtId = "" ∨ userId = "" ∨ userEmail = "" ∨ slots = [] ∨
      date = "" ∨ price = 0
  · simp [createBooking, hc]
  · simp [createBooking, hc]

/-- Witness for `createBooking_validation`: at an empty court id the
request is rejected with 400 and the store is unchanged. -/
theorem createBooking_validation_witness :
    ((createBooking "" "u1" "u1@mail.com" ["10:00-11:00"] "2024-06-01"
        20 0 stEmpty).1 = 400 ↔
      ("" = "" ∨ "u1" = "" ∨ "u1@mail.com" = "" ∨
        (["10:00-11:00"] : List String) = [] ∨ "2024-06-01" = "" ∨
        (20 : ℚ) = 0)) ∧
    (("" = "" ∨ "u1" = "" ∨ "u1@mail.com" = "" ∨
        (["10:00-11:00"] : List String) = [] ∨ "2024-06-01" = "" ∨
        (20 : ℚ) = 0) →
      (createBooking "" "u1" "u1@mail.com" ["10:00-11:00"] "2024-06-01"
        20 0 stEmpty).2 = stEmpty) :=
  createBooking_validation "" "u1" "u1@mail.com" ["10:00-11:00"]
    "2024-06-01" 20 0 stEmpty

/-- Claim C7: a booking creation with all fields present, a non-empty slot
sequence and a positive price answers 201 and appends a booking record with
status and paymentStatus both `"pending"`, created at the call time. -/
theorem createBooking_inserts_pending (courtId userId userEmail : String)
    (slots : List String) (date : String) (price : ℚ) (now : Nat)
    (st : DBState)
    (h1 : courtId ≠ "") (h2 : userId ≠ "") (h3 : userEmail ≠ "")
    (h4 : slots ≠ []) (h5 : date ≠ "") (h6 : 0 < price) :
    (createBooking courtId userId userEmail slots date price now st).1 = 201 ∧
    (createBooking courtId userId userEmail slots date price now st).2.bookings =
      st.bookings ++
        [{ id := st.nextId, courtId := courtId, userId := userId,
           userEmail := userEmail, slots := slots, date := date,
           price := price, status := "pending", paymentStatus := "pending",
           createdAt := now, transactionId := none, paidAt := none }] := by
  have hp : price ≠ 0 := ne_of_gt h6
  simp [createBooking, h1, h2, h3, h4, h5, hp]

/-- Witness for `createBooking_inserts_pending` at concrete request
fields. -/
theorem createBooking_inserts_pending_witness :
    ("c1" ≠ "") ∧ ((0 : ℚ) < 20) ∧
    ((createBooking "c1" "u1" "u1@mail.com" ["10:00-11:00"] "2024-06-01"
        20 7 stEmpty).1 = 201 ∧
     (createBooking "c1" "u1" "u1@mail.com" ["10:00-11:00"] "2024-06-01"
        20 7 stEmpty).2.bookings =
      stEmpty.bookings ++
        [{ id := stEmpty.nextId, courtId := "c1", userId := "u1",
           userEmail := "u1@mail.com", slots := ["10:00-11:00"],
           date := "2024-06-01", price := 20, status := "pending",
           paymentStatus := "pending", createdAt := 7,
           transactionId := none, paidAt := none }]) :=
  ⟨by decide, by decide,
    createBooking_inserts_pending "c1" "u1" "u1@mail.com" ["10:00-11:00"]
      "2024-06-01" 20 7 stEmpty (by decide) (by decide) (by decide)
      (by decide) (by decide) (by decide)⟩

/-- Claim C3: replaying the successful-payment webhook for the same
existing booking id is idempotent — both deliveries answer 200, the booking
ends with paymentStatus completed and status Confirmed after the first
application, and the second application leaves the store exactly as the
first left it (no regression, no error). -/
theorem webhook_replay_idempotent (st : DBState) (bid : Nat) (b : Booking)
    (amount : Int)
    (h : st.bookings.find? (fun x => x.id == bid) = some b) :
    (stripeWebhook true "payment_intent.succeeded" (some bid) amount st).1 = 200 ∧
    (stripeWebhook true "payment_intent.succeeded" (some bid) amount
        (stripeWebhook true "payment_intent.succeeded" (some bid) amount st).2).1 = 200 ∧
    (stripeWebhook true "payment_intent.succeeded" (some bid) amount st).2.bookings.find?
        (fun x => x.id == bid) =
      some { b with paymentStatus := "completed", status := "Confirmed" } ∧
    (stripeWebhook true "payment_intent.succeeded" (some bid) amount
        (stripeWebhook true "payment_intent.succeeded" (some bid) amount st).2).2 =
      (stripeWebhook true "payment_intent.succeeded" (some bid) amount st).2 := by
  have hb : (st.bookings.find? (fun x => x.id == bid)).isSome = true := by
    rw [h]; rfl
  have hu := find?_updateFirst_self (fun x => x.id == bid) confirmUpdate
    (fun x => rfl) st.bookings b h
  have hb1 : ((updateFirst (fun x => x.id == bid) confirmUpdate
      st.bookings).find? (fun x => x.id == bid)).isSome = true := by
    rw [hu]; rfl
  have hidem := updateFirst_idem (fun x => x.id == bid) confirmUpdate
    (fun x => rfl) (fun x => rfl) st.bookings
  unfold stripeWebhook
  simp [hb, hb1, hu, hidem, confirmUpdate]

/-- Witness for `webhook_replay_idempotent` at the concrete store
`stB1`. -/
theorem webhook_replay_idempotent_witness :
    stB1.bookings.find? (fun x => x.id == 1) = some bookingB1 ∧
    ((stripeWebhook true "payment_intent.succeeded" (some 1) 2000 stB1).1 = 200 ∧
     (stripeWebhook true "payment_intent.succeeded" (some 1) 2000
        (stripeWebhook true "payment_intent.succeeded" (some 1) 2000 stB1).2).1 = 200 ∧
     (stripeWebhook true "payment_intent.succeeded" (some 1) 2000 stB1).2.bookings.find?
        (fun x => x.id == 1) =
       some { bookingB1 with paymentStatus := "completed", status := "Confirmed" } ∧
     (stripeWebhook true "payment_intent.succeeded" (some 1) 2000
        (stripeWebhook true "payment_intent.succeeded" (some 1) 2000 stB1).2).2 =
       (stripeWebhook true "payment_intent.succeeded" (some 1) 2000 stB1).2) :=
  ⟨by decide, webhook_replay_idempotent stB1 1 bookingB1 2000 (by decide)⟩

/-- Claim C2, counterexample: the administrative payment-status endpoint
accepts `"pending"` and applies it to the already-completed booking
`bookingB1paid`, answering 200 and setting its paymentStatus back to
pending — refuting that no operation may regress a completed
paymentStatus. -/
theorem adminPayment_regresses_completed :
    bookingB1paid.paymentStatus = "completed" ∧
    (updateBookingPayment 1 "pending" stB1paid).1 = 200 ∧
    (updateBookingPayment 1 "pending" stB1paid).2.bookings.find?
        (fun x => x.id == 1) =
      some { bookingB1paid with paymentStatus := "pending" } := by
  decide


/-- After an `updateOne`-style update whose update function preserves the
booking id and either preserves paymentStatus or sets it to completed/paid,
the first booking found under a given id keeps a completed/paid
paymentStatus. -/
theorem mono_after_updateFirst (bid : Nat) (q : Booking → Bool)
    (f : Booking → Booking)
    (hid : ∀ x, ((f x).id == bid) = (x.id == bid))
    (hps : ∀ x, (f x).paymentStatus = x.paymentStatus ∨
      (f x).paymentStatus = "completed" ∨ (f x).paymentStatus = "paid")
    (l : List Booking) (b b' : Booking)
    (hfind : l.find? (fun x => x.id == bid) = some b)
    (hdone : b.paymentStatus = "completed" ∨ b.paymentStatus = "paid")
    (hfind' : (updateFirst q f l).find? (fun x => x.id == bid) = some b') :
    b'.paymentStatus = "completed" ∨ b'.paymentStatus = "paid" := by
  rcases find?_updateFirst_or (fun x => x.id == bid) q f hid l with h1 |
      ⟨c, hc1, hc2⟩
  · rw [h1, hfind] at hfind'
    injection hfind' with hb
    subst hb
    exact hdone
  · rw [hfind] at hc1
    injection hc1 with hc
    subst hc
    rw [hc2] at hfind'
    injection hfind' with hb
    subst hb
    rcases hps b with h | h | h
    · rw [h]; exact hdone
    · left; exact h
    · right; exact h

/-- Claim C2 (amended): once a booking's paymentStatus has reached
completed or paid, no modelled operation other than the administrative
payment-status update endpoint sets it back to pending — after any such
operation the booking found under that id still has paymentStatus
completed or paid.  The administrative endpoint itself can regress it (see
the counterexample `adminPayment_regresses_completed`). -/
theorem paymentStatus_monotone (op : Op) (st : DBState) (bid : Nat)
    (b b' : Booking)
    (hfind : st.bookings.find? (fun x => x.id == bid) = some b)
    (hdone : b.paymentStatus = "completed" ∨ b.paymentStatus = "paid")
    (hop : ∀ i s, op ≠ Op.adminSetPayment i s)
    (hfind' : (op.apply st).2.bookings.find? (fun x => x.id == bid) = some b') :
    b'.paymentStatus = "completed" ∨ b'.paymentStatus = "paid" := by
  cases op with
  | webhook sv et m a =>
    cases sv with
    | false =>
      simp [Op.apply, stripeWebhook] at hfind'
      rw [hfind] at hfind'
      injection hfind' with hb
      subst hb
      exact hdone
    | true =>
      by_cases het : et = "payment_intent.succeeded"
      · subst het
        cases m with
        | none =>
          simp [Op.apply, stripeWebhook] at hfind'
          rw [hfind] at hfind'
          injection hfind' with hb
          subst hb
          exact hdone
        | some k =>
          by_cases hk : (st.bookings.find? (fun x => x.id == k)).isSome = true
          · simp [Op.apply, stripeWebhook, hk] at hfind'
            exact mono_after_updateFirst bid (fun x => x.id == k)
              confirmUpdate (fun x => rfl) (fun x => Or.inr (Or.inl rfl))
              st.bookings b b' hfind hdone hfind'
          · simp [Op.apply, stripeWebhook, hk] at hfind'
            rw [hfind] at hfind'
            injection hfind' with hb
            subst hb
            exact hdone
      · simp [Op.apply, stripeWebhook, het] at hfind'
        rw [hfind] at hfind'
        injection hfind' with hb
        subst hb
        exact hdone
  | newBooking c u e s d p n =>
    by_cases hc : c = "" ∨ u = "" ∨ e = "" ∨ s = [] ∨ d = "" ∨ p = 0
    · simp [Op.apply, createBooking, hc] at hfind'
      rw [hfind] at hfind'
      injection hfind' with hb
      subst hb
      exact hdone
    · have hbk : ((Op.newBooking c u e s d p n).apply st).2.bookings =
          st.bookings ++
            [{ id := st.nextId, courtId := c, userId := u, userEmail := e,
               slots := s, date := d, price := p, status := "pending",
               paymentStatus := "pending", createdAt := n,
               transactionId := none, paidAt := none }] := by
        simp [Op.apply, createBooking, hc]
      rw [hbk] at hfind'
      rw [find?_append_some (fun x => x.id == bid) st.bookings _ b hfind]
        at hfind'
      injection hfind' with hb
      subst hb
      exact hdone
  | setStatus i s e u =>
    by_cases hs : ¬(s = "Approved" ∨ s = "Rejected")
    · simp [Op.apply, setBookingStatus, hs] at hfind'
      rw [hfind] at hfind'
      injection hfind' with hb
      subst hb
      exact hdone
    · cases hm : st.bookings.find? (fun x => x.id == i) with
      | none =>
        simp [Op.apply, setBookingStatus, hs, hm] at hfind'
        rw [hfind] at hfind'
        injection hfind' with hb
        subst hb
        exact hdone
      | some bk =>
        simp [Op.apply, setBookingStatus, hs, hm] at hfind'
        exact mono_after_updateFirst bid (fun x => x.id == i)
          (statusUpdate s) (fun x => rfl) (fun x => Or.inl rfl)
          st.bookings b b' hfind hdone hfind'
  | adminSetPayment i s => exact absurd rfl (hop i s)
  | clientPaymentSuccess bId t n =>
    cases hm : st.bookings.find? (fun x => x.id == bId) with
    | none =>
      simp [Op.apply, paymentSuccess, hm] at hfind'
      rw [hfind] at hfind'
      injection hfind' with hb
      subst hb
      exact hdone
    | some c =>
      by_cases hcc : paidUpdate t n c = c
      · simp [Op.apply, paymentSuccess, hm, hcc] at hfind'
        exact mono_after_updateFirst bid (fun x => x.id == bId)
          (paidUpdate t n) (fun x => rfl) (fun x => Or.inr (Or.inr rfl))
          st.bookings b b' hfind hdone hfind'
      · simp [Op.apply, paymentSuccess, hm, hcc] at hfind'
        exact mono_after_updateFirst bid (fun x => x.id == bId)
          (paidUpdate t n) (fun x => rfl) (fun x => Or.inr (Or.inr rfl))
          st.bookings b b' hfind hdone hfind'
  | newUser nm em =>
    have hbk : ((Op.newUser nm em).apply st).2.bookings = st.bookings := by
      by_cases hc : nm = "" ∨ em = ""
      · simp [Op.apply, createUser, hc]
      · cases hm : st.users.find? (fun x => x.email == em) with
        | none => simp [Op.apply, createUser, hc, hm]
        | some w => simp [Op.apply, createUser, hc, hm]
    rw [hbk, hfind] at hfind'
    injection hfind' with hb
    subst hb
    exact hdone

/-- Witness for `paymentStatus_monotone`: creating an unrelated user leaves
the confirmed booking `bookingB1paid` with paymentStatus completed. -/
theorem paymentStatus_monotone_witness :
    stB1paid.bookings.find? (fun x => x.id == 1) = some bookingB1paid ∧
    ((Op.newUser "Nia" "nia@mail.com").apply stB1paid).2.bookings.find?
        (fun x => x.id == 1) = some bookingB1paid ∧
    (bookingB1paid.paymentStatus = "completed" ∨
      bookingB1paid.paymentStatus = "paid") :=
  ⟨by decide, by decide,
    paymentStatus_monotone (Op.newUser "Nia" "nia@mail.com") stB1paid 1
      bookingB1paid bookingB1paid (by decide) (Or.inl rfl)
      (fun i s h => Op.noConfusion h) (by decide)⟩

/-- Claim C5: setBookingStatus with an existing booking id and status
Approved answers 200 and sets the booking's status to Approved; when the
resolved contact email is non-empty and a user with that email exists, that
user's role becomes member; when no email resolves, the users collection is
untouched and the status change still succeeds. -/
theorem setBookingStatus_approved (st : DBState) (id : Nat) (b : Booking)
    (userEmail : String) (userId : Option Nat)
    (h : st.bookings.find? (fun x => x.id == id) = some b) :
    (setBookingStatus id "Approved" userEmail userId st).1 = 200 ∧
    (setBookingStatus id "Approved" userEmail userId st).2.bookings.find?
        (fun x => x.id == id) = some { b with status := "Approved" } ∧
    (resolveEmail userEmail b userId st.users = "" →
      (setBookingStatus id "Approved" userEmail userId st).2.users =
        st.users) ∧
    (∀ u, resolveEmail userEmail b userId st.users ≠ "" →
      st.users.find?
          (fun x => x.email == resolveEmail userEmail b userId st.users) =
        some u →
      (setBookingStatus id "Approved" userEmail userId st).2.users.find?
          (fun x => x.email == resolveEmail userEmail b userId st.users) =
        some { u with role := "member" }) := by
  refine ⟨?_, ?_, ?_, ?_⟩
  · simp [setBookingStatus, h]
  · have hu := find?_updateFirst_self (fun x => x.id == id)
      (statusUpdate "Approved") (fun x => rfl) st.bookings b h
    simp [setBookingStatus, h, hu, statusUpdate]
  · intro he
    simp [setBookingStatus, h, he]
  · intro u hne hu
    have hm := find?_updateFirst_self
      (fun x => x.email == resolveEmail userEmail b userId st.users)
      memberUpdate (fun x => rfl) st.users u hu
    simp [setBookingStatus, h, hne, hm, memberUpdate]

/-- Witness for `setBookingStatus_approved`: approving `bookingB1` in
`stB1User` with no explicit contact resolves the booking's stored email and
promotes `userU1` to member. -/
theorem setBookingStatus_approved_witness :
    stB1User.bookings.find? (fun x => x.id == 1) = some bookingB1 ∧
    resolveEmail "" bookingB1 none stB1User.users ≠ "" ∧
    (setBookingStatus 1 "Approved" "" none stB1User).1 = 200 ∧
    (setBookingStatus 1 "Approved" "" none stB1User).2.bookings.find?
        (fun x => x.id == 1) = some { bookingB1 with status := "Approved" } ∧
    (setBookingStatus 1 "Approved" "" none stB1User).2.users.find?
        (fun x => x.email == resolveEmail "" bookingB1 none stB1User.users) =
      some { userU1 with role := "member" } :=
  have hthm := setBookingStatus_approved stB1User 1 bookingB1 "" none
    (by decide)
  ⟨by decide, by decide, hthm.1, hthm.2.1,
    hthm.2.2.2 userU1 (by decide) (by decide)⟩

/-- Claim C8, counterexample: the price 0.495 (= 99/200) is strictly below
0.50 yet createPaymentIntent accepts it, because round(100 · 0.495) = 50 —
refuting that every price below 0.50 currency unit is rejected with
ValidationError. -/
theorem paymentIntent_accepts_price_below_half :
    ((99 : ℚ) / 200 < 1 / 2) ∧
    (createPaymentIntent (99 / 200) "B1" stEmpty).1 = 200 := by
  have h50 : jsRound ((99 : ℚ) / 200 * 100) = 50 := by
    unfold jsRound
    norm_num
  refine ⟨by norm_num, ?_⟩
  simp [createPaymentIntent, h50]

/-- Claim C8 (amended): with a booking id present, requestPaymentIntent
rejects 0.49 with ValidationError (400) and accepts 0.50 (200); the
acceptance boundary is round(100·price) ≥ 50 rather than price ≥ 0.50:
every price whose rounded cent amount is below 50 is rejected, every price
of at least 0.50 is accepted, and some prices strictly below 0.50 (such as
0.495) are also accepted. -/
theorem paymentIntent_validation (bookingId : String) (st : DBState)
    (hb : bookingId ≠ "") :
    (createPaymentIntent (49 / 100) bookingId st).1 = 400 ∧
    (createPaymentIntent (1 / 2) bookingId st).1 = 200 ∧
    (∀ p : ℚ, 1 / 2 ≤ p → (createPaymentIntent p bookingId st).1 = 200) ∧
    (∀ p : ℚ, jsRound (p * 100) < 50 →
      (createPaymentIntent p bookingId st).1 = 400) := by
  have haccept : ∀ p : ℚ, 1 / 2 ≤ p →
      (createPaymentIntent p bookingId st).1 = 200 := by
    intro p hp
    have h1 : (50 : ℚ) ≤ p * 100 := by nlinarith
    have h2 : (50 : ℤ) ≤ jsRound (p * 100) := by
      unfold jsRound
      refine Int.le_floor.mpr ?_
      push_cast
      linarith
    have h3 : ¬(jsRound (p * 100) = 0 ∨ jsRound (p * 100) < 50) := by omega
    simp [createPaymentIntent, h3, hb]
  refine ⟨?_, haccept (1 / 2) le_rfl, haccept, ?_⟩
  · have h49 : jsRound (49 : ℚ) = 49 := by
      unfold jsRound
      norm_num
    simp [createPaymentIntent, h49]
  · intro p hlt
    simp [createPaymentIntent, hlt]

/-- Witness for `paymentIntent_validation` at booking id "B1". -/
theorem paymentIntent_validation_witness :
    ("B1" ≠ "") ∧
    (createPaymentIntent (49 / 100) "B1" stEmpty).1 = 400 ∧
    (createPaymentIntent (1 / 2) "B1" stEmpty).1 = 200 :=
  have hthm := paymentIntent_validation "B1" stEmpty (by decide)
  ⟨by decide, hthm.1, hthm.2.1⟩

/-- Claim C9: the gateway amount is rounded to the nearest cent before the
minimum check, so every price whose half-up-rounded cent amount reaches 50
is accepted (given a booking id), and in particular some price strictly
below 0.50 — namely 0.495 — is accepted. -/
theorem paymentIntent_round_before_min_check (bookingId : String)
    (st : DBState) (hb : bookingId ≠ "") :
    (∀ p : ℚ, 50 ≤ jsRound (p * 100) →
      (createPaymentIntent p bookingId st).1 = 200) ∧
    (∃ p : ℚ, p < 1 / 2 ∧ (createPaymentIntent p bookingId st).1 = 200) := by
  have haccept : ∀ p : ℚ, 50 ≤ jsRound (p * 100) →
      (createPaymentIntent p bookingId st).1 = 200 := by
    intro p hp
    have h3 : ¬(jsRound (p * 100) = 0 ∨ jsRound (p * 100) < 50) := by omega
    simp [createPaymentIntent, h3, hb]
  refine ⟨haccept, ⟨99 / 200, by norm_num, ?_⟩⟩
  refine haccept (99 / 200) ?_
  have h50 : jsRound ((99 : ℚ) / 200 * 100) = 50 := by
    unfold jsRound
    norm_num
  omega

/-- Witness for `paymentIntent_round_before_min_check` at booking id
"B1". -/
theorem paymentIntent_round_before_min_check_witness :
    ("B1" ≠ "") ∧
    (∃ p : ℚ, p < 1 / 2 ∧ (createPaymentIntent p "B1" stEmpty).1 = 200) :=
  have hthm := paymentIntent_round_before_min_check "B1" stEmpty (by decide)
  ⟨by decide, hthm.2⟩

/-- Claim C10: creating a user whose email already names a stored user
answers 200 with that existing record and leaves the store unchanged; and
every user record the operation ever inserts carries role `"user"`. -/
theorem createUser_email_unique (name email : String) (st : DBState)
    (u : User) (hn : name ≠ "") (he : email ≠ "")
    (h : st.users.find? (fun x => x.email == email) = some u) :
    (createUser name email st).1 = 200 ∧
    (createUser name email st).2.1 = some u ∧
    (createUser name email st).2.2 = st ∧
    (∀ (name2 email2 : String) (st2 : DBState) (v : User),
      v ∈ (createUser name2 email2 st2).2.2.users →
      v ∈ st2.users ∨ v.role = "user") := by
  refine ⟨?_, ?_, ?_, ?_⟩
  · simp [createUser, hn, he, h]
  · simp [createUser, hn, he, h]
  · simp [createUser, hn, he, h]
  · intro n2 e2 st2 v hv
    by_cases hc : n2 = "" ∨ e2 = ""
    · simp [createUser, hc] at hv
      exact Or.inl hv
    · cases hm : st2.users.find? (fun x => x.email == e2) with
      | some w =>
        simp [createUser, hc, hm] at hv
        exact Or.inl hv
      | none =>
        simp [createUser, hc, hm] at hv
        rcases hv with hv | hv
        · exact Or.inl hv
        · subst hv
          right
          rfl

/-- Witness for `createUser_email_unique`: re-creating `userU1`'s email in
`stU1` reports the existing record and inserts nothing. -/
theorem createUser_email_unique_witness :
    stU1.users.find? (fun x => x.email == "u1@mail.com") = some userU1 ∧
    (createUser "Another" "u1@mail.com" stU1).1 = 200 ∧
    (createUser "Another" "u1@mail.com" stU1).2.1 = some userU1 ∧
    (createUser "Another" "u1@mail.com" stU1).2.2 = stU1 :=
  have hthm := createUser_email_unique "Another" "u1@mail.com" stU1 userU1
    (by decide) (by decide) (by decide)
  ⟨by decide, hthm.1, hthm.2.1, hthm.2.2.1⟩
